import Mathlib

/-!
Verification development for the blogengine repository: a shallow embedding of
the request dispatcher, the metrics authorization gate, the page compiler, the
index builder and the static file store, together with theorems settling the
specification claims about them.

Go strings are modelled as lists of characters (written with String.toList on
literals), bytes as natural numbers and byte sequences as lists; the immutable
Content Index and the Alias Table are association lists looked up by key,
which matches Go map lookup for the finitely many keys a concrete instance
holds. Fallible Go functions returning (T, error) are embedded as Except or
Option; a Go runtime panic is a distinct outcome constructor.
-/

namespace Blogengine

/-- Go strings, modelled as their character sequence. -/
abbrev Str := List Char

/-- Byte sequences (the values of the Content Index and of static files). -/
abbrev Bytes := List Nat

/-- Rendered text converted to the byte sequence stored in the Content Index
(the []byte produced by the template buffer). -/
def strToBytes (s : Str) : Bytes :=
  s.map Char.toNat

/-- strings.Split with a single-character separator: splits around every
occurrence of the separator; the split of the empty string is one empty
chunk, so the result is always non-empty. -/
def goSplit (sep : Char) : Str → List Str
  | [] => [[]]
  | c :: cs =>
    match goSplit sep cs with
    | [] => [[]]
    | w :: ws => if c = sep then [] :: w :: ws else (c :: w) :: ws

/-- strings.TrimSuffix(path, the one-character slash suffix): removes one
trailing slash when present. -/
def trimOneTrailingSlash (p : Str) : Str :=
  if p.getLast? = some '/' then p.dropLast else p

/-- The parts of an inbound HTTP request inspected by the dispatcher
(src/main.go mux.ServeHTTP): URL path, virtual host, the value returned by
r.Header.Get with key Authorization (the empty string when the header is
absent), and the raw query string. -/
structure Request where
  path : Str
  host : Str
  authHeader : Str
  rawQuery : Str
deriving DecidableEq, Repr

/-- The observable outcome of one dispatch: which terminal write or
delegation the handler performs. panicOOB models the Go runtime panic raised
by an out-of-range slice index (splitToken[1] on a split with fewer than two
elements). -/
inductive Response where
  | metricsServed
  | unauthorized401
  | notFound404
  | redirect307 (target : Str)
  | content200 (body : Bytes)
  | staticServed
  | panicOOB
deriving DecidableEq, Repr

/-- The dispatcher state (src/main.go type mux; the alias field is renamed to
aliases because alias is reserved in Lean): configured bearer token, alias
table, content index and expected virtual host. The static and metrics
handlers are external collaborators, modelled by the Response constructors
staticServed and metricsServed. -/
structure mux where
  bearerToken : Str
  aliases : List (Str × Str)
  d : List (Str × Bytes)
  host : Str

/-- The metrics branch shared verbatim by mux.ServeHTTP (src/main.go:172-181),
Mux.ServeHTTP (mux snapshot lines 48-56) and the second main.go snapshot
(lines 214-222): split the Authorization value on single spaces and serve the
metrics handler when the split has exactly two chunks whose second equals the
configured token; otherwise the code evaluates splitToken[1] inside the
log.Printf call before writing 401, which panics with an index out of range
when the split has fewer than two elements. -/
def metricsGate (token auth : Str) : Response :=
  let splitToken := goSplit ' ' auth
  if splitToken.length = 2 ∧ splitToken.getD 1 [] = token then
    Response.metricsServed
  else if 2 ≤ splitToken.length then
    Response.unauthorized401
  else
    Response.panicOOB

/-- requiresAuth (src/main.go:440-450, the ServeMux snapshot): the same
two-chunk check, but with no logging statement, so a short split never
indexes out of range and every rejection is a plain 401. -/
def requiresAuth (token auth : Str) : Response :=
  let chunks := goSplit ' ' auth
  if chunks.length = 2 ∧ chunks.getD 1 [] = token then
    Response.metricsServed
  else
    Response.unauthorized401

/-- mux.ServeHTTP (src/main.go:169-203): metrics gate first, then host
validation, then the alias table, then the Content Index, then the static
fallback. The alias lookup precedes the content lookup in this snapshot (and
in the second main.go snapshot, lines 230-244). -/
def mux.ServeHTTP (m : mux) (r : Request) : Response :=
  if r.path = "/metrics".toList then
    metricsGate m.bearerToken r.authHeader
  else if r.host ≠ m.host then
    Response.notFound404
  else
    match m.aliases.lookup r.path with
    | some target =>
        Response.redirect307
          (if 0 < r.rawQuery.length then target ++ ('?' :: r.rawQuery) else target)
    | none =>
        match m.d.lookup r.path with
        | some a => Response.content200 a
        | none => Response.staticServed

/-- The Mux dispatcher state of the mux snapshot (same field set as mux). -/
structure Mux where
  bearerToken : Str
  aliases : List (Str × Str)
  d : List (Str × Bytes)
  host : Str

/-- Mux.ServeHTTP (mux snapshot lines 37-83): metrics, host, content index,
then alias, then static fallback — the content lookup precedes the alias
lookup in this variant. The metric instrumentation wrapper forwards every
write unchanged and is omitted. -/
def Mux.ServeHTTP (m : Mux) (r : Request) : Response :=
  if r.path = "/metrics".toList then
    metricsGate m.bearerToken r.authHeader
  else if r.host ≠ m.host then
    Response.notFound404
  else
    match m.d.lookup r.path with
    | some a => Response.content200 a
    | none =>
        match m.aliases.lookup r.path with
        | some target =>
            Response.redirect307
              (if 0 < r.rawQuery.length then target ++ ('?' :: r.rawQuery) else target)
        | none => Response.staticServed

/-! ## Page compiler (src/page.go) -/

/-- Calendar date as parsed by time.Parse with layout 02/01/2006. -/
structure Date where
  year : Nat
  month : Nat
  day : Nat
deriving DecidableEq, Repr

/-- Days in a month under the proleptic Gregorian rules used by Go time. -/
def daysInMonth (y m : Nat) : Nat :=
  if m = 2 then
    if (y % 4 = 0 ∧ y % 100 ≠ 0) ∨ y % 400 = 0 then 29 else 28
  else if m = 4 ∨ m = 6 ∨ m = 9 ∨ m = 11 then 30 else 31

/-- Digit sequence to number (the sequence is guarded to be all digits). -/
def digitsToNat (l : Str) : Nat :=
  l.foldl (fun acc c => acc * 10 + (c.toNat - 48)) 0

/-- Model of Go time.Parse with layout 02/01/2006 applied to the second line:
exactly two digits of day, a slash, exactly two digits of month, a slash,
exactly four digits of year (the zero-padded layout values demand fixed
widths), with the month in 1..12 and the day in range for that month and
year; anything else is a parse error. -/
def parseDate (s : Str) : Option Date :=
  match goSplit '/' s with
  | [ds, ms, ys] =>
    if ds.length = 2 ∧ ms.length = 2 ∧ ys.length = 4
        ∧ ds.all Char.isDigit ∧ ms.all Char.isDigit ∧ ys.all Char.isDigit then
      let d := digitsToNat ds
      let m := digitsToNat ms
      let y := digitsToNat ys
      if 1 ≤ m ∧ m ≤ 12 ∧ 1 ≤ d ∧ d ≤ daysInMonth y m then
        some ⟨y, m, d⟩
      else
        none
    else
      none
  | _ => none

/-- One article stream as consumed by parsePage: the first line, the second
line and the remaining bytes (both parsePage snapshots read exactly this
shape: line one is the title, line two the date line, the rest the markdown
body). -/
structure ArticleFile where
  line1 : Str
  line2 : Str
  body : Str
deriving DecidableEq, Repr

/-- One compiled page (src/page.go type Page; the Date field is written in
lowercase because the name clashes with the Date type). -/
structure Page where
  Path : Str
  Title : Str
  date : Date
  Content : Str
deriving DecidableEq, Repr

/-- The external markdown-to-HTML transform (blackfriday.Run), an external
collaborator whose output is embedded untouched; modelled as the identity on
the body text. -/
def blackfridayRun (body : Str) : Str :=
  body

/-- Rendering of a date by the page template, digit text of day, month and
year. -/
def dateText (d : Date) : Str :=
  Nat.toDigits 10 d.day ++ ('/' :: Nat.toDigits 10 d.month) ++ ('/' :: Nat.toDigits 10 d.year)

/-- Execution of the fixed page template (src/page.go pageTmpl): composes the
title, the rendered date and the body into one HTML document; modelled as the
concatenation of the three parts in template order. -/
def pageTmplExecute (title dateRendered body : Str) : Str :=
  title ++ ('\n' :: dateRendered) ++ ('\n' :: body)

/-- parsePage of the second page.go snapshot (lines 152-199): line one is the
title taken verbatim, line two must parse with layout 02/01/2006 and a parse
failure is a hard error for the file; the body is rendered through the
markdown transform and the page template. The Path field is not assigned by
this snapshot. -/
def parsePage (f : ArticleFile) : Except Str Page :=
  match parseDate f.line2 with
  | none => Except.error ("parsing date".toList)
  | some d =>
      Except.ok
        { Path := []
          Title := f.line1
          date := d
          Content := pageTmplExecute f.line1 (dateText d) (blackfridayRun f.body) }

/-- parsePage of the first page.go snapshot (lines 23-67): line one is the
title, but line two is never parsed — the page date is stamped with
time.Now() (passed here explicitly as the now argument) and compilation
always succeeds regardless of the content of the date line. -/
def parsePageNow (now : Date) (f : ArticleFile) : Except Str Page :=
  Except.ok
    { Path := []
      Title := f.line1
      date := now
      Content := pageTmplExecute f.line1 (dateText now) (blackfridayRun f.body) }

/-- Compilation of every article in the pages directory, the loop of parse
(src/main.go:120-146): each file is fed to parsePage and the first failure
aborts the whole pass with an error. -/
def parsePages : List ArticleFile → Except Str (List Page)
  | [] => Except.ok []
  | f :: rest => do
      let p ← parsePage f
      let ps ← parsePages rest
      Except.ok (p :: ps)

/-! ## Index builder -/

/-- Modelled from the spec: the Pages sort.Interface is referenced at
src/main.go:152 through sort.Sort(sort.Reverse(Pages(articles))) but its
Less method is not among the provided sources; per the index-builder
contract the pages are ordered by publication date, so Less compares dates
chronologically and the reversal yields most-recent-first. dateLexLe is the
chronological (lexicographic year, month, day) comparison of two dates. -/
def dateLexLe (a b : Date) : Prop :=
  a.year < b.year
    ∨ (a.year = b.year
        ∧ (a.month < b.month ∨ (a.month = b.month ∧ a.day ≤ b.day)))

instance (a b : Date) : Decidable (dateLexLe a b) :=
  inferInstanceAs (Decidable (_ ∨ _ ∧ (_ ∨ _ ∧ _)))

/-- The page ordering produced by sort.Reverse of the date-ascending Pages
interface: a page precedes another when its date is at least the other's. -/
def pageGe (a b : Page) : Prop :=
  dateLexLe b.date a.date

instance (a b : Page) : Decidable (pageGe a b) :=
  inferInstanceAs (Decidable (dateLexLe _ _))

instance : IsTotal Page pageGe where
  total a b := by
    unfold pageGe dateLexLe
    omega

instance : IsTrans Page pageGe where
  trans a b c hab hbc := by
    unfold pageGe dateLexLe at *
    omega

/-- renderIndex (src/main.go:150-158): sorts the compiled pages most recent
first and renders the home page by iterating over them in that order; the
value here is the ordered sequence of pages embedded into the rendered
listing. The sort is the Go library sort over the reversed Pages ordering,
embedded as an insertion sort with the same contract. -/
def renderIndex (articles : List Page) : List Page :=
  List.insertionSort pageGe articles

/-- renderIndex of the earlier plain-template snapshot
(src/unnamed/part_004:195-201): executes the index template directly over the
articles slice with no sort anywhere in that snapshot (its run, lines 45-71,
passes the parse output straight through), so the sequence of pages embedded
into that home page is exactly the input sequence — directory-read order. -/
def renderIndexUnsorted (articles : List Page) : List Page :=
  articles

/-- The home page bytes: the rendered listing text, title and content of each
page in renderIndex order. -/
def renderIndexContent (articles : List Page) : Str :=
  (renderIndex articles).foldr (fun p acc => p.Title ++ p.Content ++ acc) []

/-- parse (src/main.go:120-146): compiles every article file, registers each
page under its path in the content map and the rendered home page under the
root path; any page failure aborts the pass. -/
def parse (files : List ArticleFile) : Except Str (List (Str × Bytes)) := do
  let index ← parsePages files
  Except.ok
    ((index.map fun p => (p.Path, strToBytes p.Content))
      ++ [("/".toList, strToBytes (renderIndexContent index))])

/-- run (src/main.go:56-89): builds the content map with parse, loads the
alias table (the decode result of the alias file is passed in, file input
being external), and only then constructs the dispatcher; any failure is
returned to main, which aborts process startup (log.Fatal). -/
def run (host token : Str) (files : List ArticleFile)
    (aliasData : Except Str (List (Str × Str))) : Except Str mux := do
  let articles ← parse files
  let aliases ← aliasData
  Except.ok { bearerToken := token, aliases := aliases, d := articles, host := host }

/-- Except discriminator used to state failure propagation. -/
def isErr : Except Str α → Bool
  | Except.error _ => true
  | Except.ok _ => false

/-! ## Static file store (src/main.go FileSystem, lines 205-226) -/

/-- The result of the Stat call on an opened file: the file info when Stat
succeeds (only the directory bit is inspected), or none when Stat returns an
error, in which case the returned FileInfo interface value is nil. -/
structure GoFileInfo where
  isDir : Bool
deriving DecidableEq, Repr

/-- An opened underlying file as seen by FileSystem.Open: only its Stat
result is inspected. -/
structure GoFile where
  stat : Option GoFileInfo
deriving DecidableEq, Repr

/-- The custom file system handler (src/main.go:205-208) wrapping an
underlying http.FileSystem, embedded as a partial map from paths to openable
files; a none result is the open error the caller receives. -/
structure FileSystem where
  fs : Str → Option GoFile

/-- Outcome of FileSystem.Open: the opened file, an error (returned verbatim
to the caller, which treats it as not-found), or the runtime panic raised by
calling IsDir on the nil FileInfo that accompanies a failed Stat — the code
assigns the Stat error to err but never checks it before s.IsDir(). -/
inductive StaticOpen where
  | ok (f : GoFile)
  | err
  | panicNilStat
deriving DecidableEq, Repr

/-- FileSystem.Open (src/main.go:211-226): open the underlying path,
propagating an open error; stat it, ignoring the stat error; when the file is
a directory, require the synthetic index.html inside it to be openable,
propagating that failure; otherwise return the file. -/
def FileSystem.Open (fsys : FileSystem) (path : Str) : StaticOpen :=
  match fsys.fs path with
  | none => StaticOpen.err
  | some f =>
    match f.stat with
    | none => StaticOpen.panicNilStat
    | some s =>
        if s.isDir then
          match fsys.fs (trimOneTrailingSlash path ++ "/index.html".toList) with
          | none => StaticOpen.err
          | some _ => StaticOpen.ok f
        else
          StaticOpen.ok f

/-! ## Caching static store (spec section 4.4) -/

/-- One file of the static root as the caching store reads it: the directory
bit and the full content bytes. -/
structure DiskFile where
  isDir : Bool
  content : Bytes
deriving DecidableEq, Repr

/-- Modelled from the spec: a Cache Entry of the Caching Static Store —
content buffer plus the read cursor over it. The store itself (the
newFileSystem referenced at src/main.go:420) is not among the provided
sources; only its construction site is. -/
structure CacheEntry where
  content : Bytes
  offset : Nat
deriving DecidableEq, Repr

/-- The mutable store state: the cache map, an association list from path to
entry, guarded in the implementation by one lock that covers the whole
operation (concurrency is externalized; each Open is one atomic step here). -/
structure CacheState where
  entries : List (Str × CacheEntry)
deriving DecidableEq, Repr

/-- Result of a caching Open: a cache entry or a not-found error. -/
inductive CacheOpen where
  | ok (e : CacheEntry)
  | err
deriving DecidableEq, Repr

/-- One Open step: the result handed to the caller, the successor store
state, and how many underlying disk accesses the step performed. -/
structure OpenStep where
  result : CacheOpen
  state : CacheState
  diskReads : Nat
deriving DecidableEq, Repr

/-- Cursor reset applied to the stored entry on a cache hit. -/
def resetOffset (path : Str) (es : List (Str × CacheEntry)) : List (Str × CacheEntry) :=
  es.map fun kv => if kv.1 = path then (kv.1, { kv.2 with offset := 0 }) else kv

/-- Modelled from the spec: Open of the Caching Static Store (section 4.4,
the newFileSystem used at src/main.go:420 whose definition is not among the
provided sources). On a hit the entry's read cursor is reset to position zero
and the entry is returned with no disk access; on a miss the underlying path
is opened and read whole (a directory additionally requires its index.html to
be openable, failure propagating as not-found), a fresh entry is inserted
into the map and returned. Entries are never evicted. -/
def cachingOpen (disk : Str → Option DiskFile) (path : Str) (s : CacheState) : OpenStep :=
  match s.entries.lookup path with
  | some e => ⟨CacheOpen.ok { e with offset := 0 }, ⟨resetOffset path s.entries⟩, 0⟩
  | none =>
    match disk path with
    | none => ⟨CacheOpen.err, s, 1⟩
    | some f =>
        if f.isDir then
          match disk (trimOneTrailingSlash path ++ "/index.html".toList) with
          | none => ⟨CacheOpen.err, s, 2⟩
          | some _ => ⟨CacheOpen.ok ⟨f.content, 0⟩, ⟨(path, ⟨f.content, 0⟩) :: s.entries⟩, 2⟩
        else
          ⟨CacheOpen.ok ⟨f.content, 0⟩, ⟨(path, ⟨f.content, 0⟩) :: s.entries⟩, 1⟩

/-! ## Helper lemmas -/

/-- Bind on Except propagates a failure of its first operand. -/
theorem isErr_bind {α β : Type} (x : Except Str α) (g : α → Except Str β)
    (h : isErr x = true) : isErr (x >>= g) = true := by
  cases x with
  | error e => rfl
  | ok a => simp [isErr] at h

/-- The compile pass fails whenever any one of its files fails to compile. -/
theorem parsePages_isErr {files : List ArticleFile} {f : ArticleFile}
    (hf : f ∈ files) (he : isErr (parsePage f) = true) :
    isErr (parsePages files) = true := by
  induction files with
  | nil => cases hf
  | cons g rest ih =>
    rcases List.mem_cons.mp hf with rfl | hmem
    · unfold parsePages
      exact isErr_bind _ _ he
    · unfold parsePages
      cases hpg : parsePage g with
      | error e => rfl
      | ok p =>
        show isErr (parsePages rest >>= fun ps => Except.ok (p :: ps)) = true
        exact isErr_bind _ _ (ih hmem)

/-! ## Claim theorems -/

/-- Claim C1, counterexample: a concrete dispatcher whose alias table and
content index both hold the path /p, with matching host and a non-metrics
path. mux.ServeHTTP (src/main.go:169-203) issues the 307 alias redirect and
does not serve the content bytes, so an exact content-index hit does NOT win
over an alias in this snapshot: the alias lookup at line 187 precedes the
content lookup at line 196. -/
theorem alias_shadows_content_cex :
    List.lookup "/p".toList [("/p".toList, ([1, 2, 3] : Bytes))] = some [1, 2, 3]
    ∧ List.lookup "/p".toList [("/p".toList, "/new".toList)] = some "/new".toList
    ∧ mux.ServeHTTP
        ⟨"t".toList, [("/p".toList, "/new".toList)], [("/p".toList, [1, 2, 3])], "h".toList⟩
        ⟨"/p".toList, "h".toList, [], []⟩
      = Response.redirect307 "/new".toList
    ∧ mux.ServeHTTP
        ⟨"t".toList, [("/p".toList, "/new".toList)], [("/p".toList, [1, 2, 3])], "h".toList⟩
        ⟨"/p".toList, "h".toList, [], []⟩
      ≠ Response.content200 [1, 2, 3] := by decide

/-- Claim C1, amended: for every request (host matching, path not /metrics)
whose path is present in both the Content Index and the Alias Table, the
main.go dispatcher (mux.ServeHTTP, alias lookup first) issues the 307 alias
redirect and does not serve the content bytes, while the Mux dispatcher of
the mux snapshot (content lookup first) serves the Content Index bytes with
200 and issues no redirect — only in that variant does an exact content-index
hit win over an alias. -/
theorem alias_preempts_content_index (m : mux) (M : Mux) (r : Request)
    (bs : Bytes) (target : Str)
    (hp : r.path ≠ "/metrics".toList)
    (hh : r.host = m.host) (hH : r.host = M.host)
    (_hd : m.d.lookup r.path = some bs) (hD : M.d.lookup r.path = some bs)
    (ha : m.aliases.lookup r.path = some target)
    (_hA : M.aliases.lookup r.path = some target) :
    m.ServeHTTP r =
        Response.redirect307
          (if 0 < r.rawQuery.length then target ++ ('?' :: r.rawQuery) else target)
      ∧ M.ServeHTTP r = Response.content200 bs := by
  constructor
  · unfold mux.ServeHTTP
    rw [if_neg hp, if_neg (by simp [hh]), ha]
  · unfold Mux.ServeHTTP
    rw [if_neg hp, if_neg (by simp [hH]), hD]

/-- Claim C1, witness: the amended theorem applied at a concrete dispatcher
pair with the path /a in both tables. -/
theorem alias_preempts_content_index_witness :
    mux.ServeHTTP
        ⟨"t".toList, [("/a".toList, "/b".toList)], [("/a".toList, [9])], "w".toList⟩
        ⟨"/a".toList, "w".toList, [], []⟩
      = Response.redirect307 "/b".toList
    ∧ Mux.ServeHTTP
        ⟨"t".toList, [("/a".toList, "/b".toList)], [("/a".toList, [9])], "w".toList⟩
        ⟨"/a".toList, "w".toList, [], []⟩
      = Response.content200 [9] :=
  alias_preempts_content_index
    ⟨"t".toList, [("/a".toList, "/b".toList)], [("/a".toList, [9])], "w".toList⟩
    ⟨"t".toList, [("/a".toList, "/b".toList)], [("/a".toList, [9])], "w".toList⟩
    ⟨"/a".toList, "w".toList, [], []⟩ [9] "/b".toList
    (by decide) rfl rfl (by decide) (by decide) (by decide) (by decide)

/-- Claim C2: Open of the caching static store, modelled from the spec
(section 4.4; its construction site is src/main.go:420 but its definition is
not among the provided sources). Starting from any state where the path is
not yet cached and the disk holds a non-directory file: the first Open
performs exactly one disk access and returns the file bytes with the read
cursor at position zero; the second Open on the resulting state returns
identical bytes with the cursor again at zero and performs no disk access. -/
theorem cachingOpen_memoizes (disk : Str → Option DiskFile) (p : Str) (bs : Bytes)
    (s : CacheState) (hmiss : s.entries.lookup p = none)
    (hdisk : disk p = some ⟨false, bs⟩) :
    (cachingOpen disk p s).result = CacheOpen.ok ⟨bs, 0⟩
    ∧ (cachingOpen disk p s).diskReads = 1
    ∧ (cachingOpen disk p (cachingOpen disk p s).state).result = CacheOpen.ok ⟨bs, 0⟩
    ∧ (cachingOpen disk p (cachingOpen disk p s).state).diskReads = 0 := by
  simp [cachingOpen, hmiss, hdisk, List.lookup]

/-- Claim C2, witness: the memoization theorem applied to a one-file disk and
the empty cache. -/
theorem cachingOpen_memoizes_witness :
    (cachingOpen (fun q => if q = "/x.png".toList then some ⟨false, [7, 7]⟩ else none)
        "/x.png".toList ⟨[]⟩).result = CacheOpen.ok ⟨[7, 7], 0⟩
    ∧ (cachingOpen (fun q => if q = "/x.png".toList then some ⟨false, [7, 7]⟩ else none)
        "/x.png".toList ⟨[]⟩).diskReads = 1
    ∧ (cachingOpen (fun q => if q = "/x.png".toList then some ⟨false, [7, 7]⟩ else none)
        "/x.png".toList
        (cachingOpen (fun q => if q = "/x.png".toList then some ⟨false, [7, 7]⟩ else none)
          "/x.png".toList ⟨[]⟩).state).result = CacheOpen.ok ⟨[7, 7], 0⟩
    ∧ (cachingOpen (fun q => if q = "/x.png".toList then some ⟨false, [7, 7]⟩ else none)
        "/x.png".toList
        (cachingOpen (fun q => if q = "/x.png".toList then some ⟨false, [7, 7]⟩ else none)
          "/x.png".toList ⟨[]⟩).state).diskReads = 0 :=
  cachingOpen_memoizes
    (fun q => if q = "/x.png".toList then some ⟨false, [7, 7]⟩ else none)
    "/x.png".toList [7, 7] ⟨[]⟩ rfl (by decide)

/-- Claim C3: evaluation of the dispatcher at the failing input. A request to
/metrics with no Authorization header makes r.Header.Get return the empty
string, whose split on spaces is the single empty chunk; the log.Printf
argument splitToken[1] is then an out-of-range index, so the handler panics
instead of writing 401 — the token count is NOT verified before the second
element is read in the logging statement. Both the main.go dispatcher and the
Mux snapshot dispatcher exhibit the panic. -/
theorem metrics_missing_auth_panics :
    (goSplit ' ' []).length = 1
    ∧ mux.ServeHTTP ⟨"secret".toList, [], [], "h".toList⟩
        ⟨"/metrics".toList, "h".toList, [], []⟩ = Response.panicOOB
    ∧ Mux.ServeHTTP ⟨"secret".toList, [], [], "h".toList⟩
        ⟨"/metrics".toList, "h".toList, [], []⟩ = Response.panicOOB
    ∧ mux.ServeHTTP ⟨"secret".toList, [], [], "h".toList⟩
        ⟨"/metrics".toList, "h".toList, [], []⟩ ≠ Response.unauthorized401 := by decide

/-- Claim C4, counterexample: an Authorization header with no space (one
split chunk) on /metrics does not yield 401 from the main.go dispatcher —
the logging statement indexes the missing second chunk and the handler
panics. -/
theorem metrics_malformed_auth_cex :
    (goSplit ' ' "Bearer".toList).length ≠ 2
    ∧ mux.ServeHTTP ⟨"secret".toList, [], [], "h".toList⟩
        ⟨"/metrics".toList, "h".toList, "Bearer".toList, []⟩ ≠ Response.unauthorized401
    ∧ mux.ServeHTTP ⟨"secret".toList, [], [], "h".toList⟩
        ⟨"/metrics".toList, "h".toList, "Bearer".toList, []⟩ = Response.panicOOB := by decide

/-- Claim C4, amended: on /metrics, a header splitting into exactly two
chunks whose second equals the secret is delegated by both the dispatcher and
requiresAuth; any other header is rejected with 401 by requiresAuth
(src/main.go:440-450) unconditionally, and by the dispatcher whenever the
split has at least two chunks; a split with fewer than two chunks makes the
dispatcher panic in its logging statement instead of answering 401. -/
theorem metrics_auth_gate_behavior (m : mux) (r : Request)
    (hp : r.path = "/metrics".toList) :
    ((goSplit ' ' r.authHeader).length = 2
        ∧ (goSplit ' ' r.authHeader).getD 1 [] = m.bearerToken →
      m.ServeHTTP r = Response.metricsServed
        ∧ requiresAuth m.bearerToken r.authHeader = Response.metricsServed)
    ∧ (¬((goSplit ' ' r.authHeader).length = 2
          ∧ (goSplit ' ' r.authHeader).getD 1 [] = m.bearerToken) →
        requiresAuth m.bearerToken r.authHeader = Response.unauthorized401)
    ∧ (2 ≤ (goSplit ' ' r.authHeader).length →
        ¬((goSplit ' ' r.authHeader).length = 2
          ∧ (goSplit ' ' r.authHeader).getD 1 [] = m.bearerToken) →
        m.ServeHTTP r = Response.unauthorized401)
    ∧ ((goSplit ' ' r.authHeader).length < 2 → m.ServeHTTP r = Response.panicOOB) := by
  refine ⟨?_, ?_, ?_, ?_⟩
  · intro h
    constructor
    · unfold mux.ServeHTTP
      rw [if_pos hp]
      unfold metricsGate
      rw [if_pos h]
    · unfold requiresAuth
      rw [if_pos h]
  · intro h
    unfold requiresAuth
    rw [if_neg h]
  · intro hlen h
    unfold mux.ServeHTTP
    rw [if_pos hp]
    unfold metricsGate
    rw [if_neg h, if_pos hlen]
  · intro hlen
    have h1 : ¬((goSplit ' ' r.authHeader).length = 2
        ∧ (goSplit ' ' r.authHeader).getD 1 [] = m.bearerToken) :=
      fun hc => absurd hc.1 (by omega)
    have h2 : ¬(2 ≤ (goSplit ' ' r.authHeader).length) := by omega
    unfold mux.ServeHTTP
    rw [if_pos hp]
    unfold metricsGate
    rw [if_neg h1, if_neg h2]

/-- Claim C4, witness: the gate theorem applied to the exact configured token
(delegation) and to a wrong two-chunk token (401). -/
theorem metrics_auth_gate_behavior_witness :
    mux.ServeHTTP ⟨"secret".toList, [], [], "h".toList⟩
        ⟨"/metrics".toList, "h".toList, "Bearer secret".toList, []⟩ = Response.metricsServed
    ∧ mux.ServeHTTP ⟨"secret".toList, [], [], "h".toList⟩
        ⟨"/metrics".toList, "h".toList, "Bearer wrong".toList, []⟩
      = Response.unauthorized401 :=
  ⟨((metrics_auth_gate_behavior ⟨"secret".toList, [], [], "h".toList⟩
      ⟨"/metrics".toList, "h".toList, "Bearer secret".toList, []⟩ rfl).1 (by decide)).1,
    (metrics_auth_gate_behavior ⟨"secret".toList, [], [], "h".toList⟩
      ⟨"/metrics".toList, "h".toList, "Bearer wrong".toList, []⟩ rfl).2.2.1
      (by decide) (by decide)⟩

/-- Claim C5: a request whose path is not /metrics and whose host differs
from the configured host is answered 404 whatever the content index holds,
because host validation is the second dispatch stage; and for /metrics the
dispatch outcome does not depend on the request host at all, since the
metrics stage is evaluated before host validation. -/
theorem host_mismatch_404_metrics_reachable (m : mux) (r : Request) :
    (r.path ≠ "/metrics".toList → r.host ≠ m.host → m.ServeHTTP r = Response.notFound404)
    ∧ (r.path = "/metrics".toList →
        ∀ h : Str, mux.ServeHTTP m { r with host := h } = m.ServeHTTP r) := by
  constructor
  · intro hp hh
    unfold mux.ServeHTTP
    rw [if_neg hp, if_pos hh]
  · intro hp h
    unfold mux.ServeHTTP
    rw [if_pos hp, if_pos hp]

/-- Claim C5, witness: a path present in the content index served 404 under a
foreign host, and a /metrics request whose outcome is unchanged by a foreign
host. -/
theorem host_mismatch_404_metrics_reachable_witness :
    mux.ServeHTTP ⟨"s".toList, [], [("/page".toList, [1])], "good".toList⟩
        ⟨"/page".toList, "evil".toList, [], []⟩ = Response.notFound404
    ∧ mux.ServeHTTP ⟨"s".toList, [], [], "good".toList⟩
        ⟨"/metrics".toList, "evil".toList, "Bearer s".toList, []⟩
      = mux.ServeHTTP ⟨"s".toList, [], [], "good".toList⟩
        ⟨"/metrics".toList, "good".toList, "Bearer s".toList, []⟩ :=
  ⟨(host_mismatch_404_metrics_reachable
      ⟨"s".toList, [], [("/page".toList, [1])], "good".toList⟩
      ⟨"/page".toList, "evil".toList, [], []⟩).1 (by decide) (by decide),
    (host_mismatch_404_metrics_reachable ⟨"s".toList, [], [], "good".toList⟩
      ⟨"/metrics".toList, "good".toList, "Bearer s".toList, []⟩).2 rfl "evil".toList⟩

/-- Claim C6, counterexample: the parsePage of the first page.go snapshot
(lines 23-67) never parses the second line — it stamps the page with
time.Now() (lines 41-43) — so a file whose second line is not a 02/01/2006
date still compiles successfully: compilation CAN succeed with a malformed
date line in that snapshot. -/
theorem malformed_date_compiles_cex :
    parseDate "not a date".toList = none
    ∧ isErr (parsePageNow ⟨2024, 5, 1⟩
        ⟨"Title".toList, "not a date".toList, "body".toList⟩) = false := by decide

/-- Claim C6, amended: in the parsePage snapshot that parses the date line
(src/page.go:166-175), a second line that fails the 02/01/2006 layout is a
hard failure for that file; the failure aborts the whole compile pass
(parsePages) and propagates through parse and run, so process startup
fails. -/
theorem malformed_date_fatal (files : List ArticleFile) (f : ArticleFile)
    (hf : f ∈ files) (hd : parseDate f.line2 = none) :
    isErr (parsePage f) = true
    ∧ isErr (parsePages files) = true
    ∧ ∀ (host token : Str) (aliasData : Except Str (List (Str × Str))),
        isErr (run host token files aliasData) = true := by
  have h1 : isErr (parsePage f) = true := by
    unfold parsePage
    rw [hd]
    rfl
  have h2 := parsePages_isErr hf h1
  refine ⟨h1, h2, ?_⟩
  intro host token aliasData
  unfold run parse
  cases hpp : parsePages files with
  | error e => rfl
  | ok ps =>
    rw [hpp] at h2
    simp [isErr] at h2

/-- Claim C6, witness: startup fails on a one-article directory whose date
line is malformed. -/
theorem malformed_date_fatal_witness :
    isErr (run "h".toList "t".toList [⟨"T".toList, "nodate".toList, "b".toList⟩]
      (Except.ok [])) = true :=
  (malformed_date_fatal [⟨"T".toList, "nodate".toList, "b".toList⟩]
      ⟨"T".toList, "nodate".toList, "b".toList⟩ (by decide) (by decide)).2.2
    "h".toList "t".toList (Except.ok [])

/-- Claim C7, counterexample: the renderIndex of the part_004 snapshot
(lines 195-201) sorts nothing — the home page renders the pages in the input
(directory-read) order. With two pages whose filename order opposes their
date order, the page dated 2024-01-05 is strictly later than the one dated
2023-02-01 yet appears at position one, AFTER it: on that home page compiled
pages do not appear in descending date order. -/
theorem index_unsorted_cex :
    dateLexLe (⟨2023, 2, 1⟩ : Date) ⟨2024, 1, 5⟩
    ∧ ¬dateLexLe (⟨2024, 1, 5⟩ : Date) ⟨2023, 2, 1⟩
    ∧ (renderIndexUnsorted [⟨[], "a".toList, ⟨2023, 2, 1⟩, []⟩,
        ⟨[], "b".toList, ⟨2024, 1, 5⟩, []⟩]).get ⟨0, by decide⟩
      = ⟨[], "a".toList, ⟨2023, 2, 1⟩, []⟩
    ∧ (renderIndexUnsorted [⟨[], "a".toList, ⟨2023, 2, 1⟩, []⟩,
        ⟨[], "b".toList, ⟨2024, 1, 5⟩, []⟩]).get ⟨1, by decide⟩
      = ⟨[], "b".toList, ⟨2024, 1, 5⟩, []⟩
    ∧ ¬dateLexLe
        ((renderIndexUnsorted [⟨[], "a".toList, ⟨2023, 2, 1⟩, []⟩,
          ⟨[], "b".toList, ⟨2024, 1, 5⟩, []⟩]).get ⟨1, by decide⟩).date
        ((renderIndexUnsorted [⟨[], "a".toList, ⟨2023, 2, 1⟩, []⟩,
          ⟨[], "b".toList, ⟨2024, 1, 5⟩, []⟩]).get ⟨0, by decide⟩).date := by decide

/-- Claim C7, amended: the sorting renderIndex of src/main.go (lines 150-158,
sort.Sort over the reversed Pages ordering) lists every compiled page (the
rendered sequence is a permutation of the input) in descending date order —
at any two listing positions the later page's date is at most the earlier
one's, so a page dated strictly later than another always appears before it.
The part_004 renderIndex performs no sort and offers no such guarantee. -/
theorem index_sorted_desc (articles : List Page) :
    (renderIndex articles).Perm articles
    ∧ ∀ (i j : Fin (renderIndex articles).length), i < j →
        dateLexLe ((renderIndex articles).get j).date ((renderIndex articles).get i).date := by
  constructor
  · exact List.perm_insertionSort pageGe articles
  · intro i j hij
    exact (List.sorted_insertionSort pageGe articles).rel_get_of_lt hij

/-- Claim C7, witness: the ordering theorem applied to a two-page listing in
which the input order is ascending. -/
theorem index_sorted_desc_witness :
    dateLexLe
      ((renderIndex [⟨[], "a".toList, ⟨2023, 2, 1⟩, []⟩,
          ⟨[], "b".toList, ⟨2024, 1, 5⟩, []⟩]).get ⟨1, by decide⟩).date
      ((renderIndex [⟨[], "a".toList, ⟨2023, 2, 1⟩, []⟩,
          ⟨[], "b".toList, ⟨2024, 1, 5⟩, []⟩]).get ⟨0, by decide⟩).date :=
  (index_sorted_desc [⟨[], "a".toList, ⟨2023, 2, 1⟩, []⟩,
      ⟨[], "b".toList, ⟨2024, 1, 5⟩, []⟩]).2 ⟨0, by decide⟩ ⟨1, by decide⟩ (by decide)

/-- Claim C8: evaluation of FileSystem.Open (src/main.go:211-226) at the
failing input — a path whose underlying open succeeds but whose Stat fails.
The code assigns the Stat error to err without checking it and immediately
calls s.IsDir() on the nil FileInfo, a runtime panic: the stat failure is
not returned as an error treated as not-found. -/
theorem static_open_stat_failure_panics :
    FileSystem.Open ⟨fun p => if p = "/f".toList then some ⟨none⟩ else none⟩ "/f".toList
      = StaticOpen.panicNilStat
    ∧ FileSystem.Open ⟨fun p => if p = "/f".toList then some ⟨none⟩ else none⟩ "/f".toList
      ≠ StaticOpen.err := by decide

/-- Claim C9: on an alias hit (host matching, path not /metrics) the
dispatcher answers 307; with a non-empty query string the redirect target is
the alias target with a question mark and the query appended, and with an
empty query string the target is exactly the alias target. -/
theorem alias_redirect_preserves_query (m : mux) (r : Request) (target : Str)
    (hp : r.path ≠ "/metrics".toList) (hh : r.host = m.host)
    (ha : m.aliases.lookup r.path = some target) :
    (0 < r.rawQuery.length →
        m.ServeHTTP r = Response.redirect307 (target ++ ('?' :: r.rawQuery)))
    ∧ (r.rawQuery = [] → m.ServeHTTP r = Response.redirect307 target) := by
  constructor
  · intro hq
    unfold mux.ServeHTTP
    rw [if_neg hp, if_neg (by simp [hh]), ha]
    dsimp only
    rw [if_pos hq]
  · intro hq
    unfold mux.ServeHTTP
    rw [if_neg hp, if_neg (by simp [hh]), ha]
    dsimp only
    rw [if_neg (by simp [hq])]

/-- Claim C9, witness: the redirect theorem applied to the alias /old to /new
with query q=1 and with no query. -/
theorem alias_redirect_preserves_query_witness :
    mux.ServeHTTP ⟨"t".toList, [("/old".toList, "/new".toList)], [], "w".toList⟩
        ⟨"/old".toList, "w".toList, [], "q=1".toList⟩
      = Response.redirect307 ("/new".toList ++ ('?' :: "q=1".toList))
    ∧ mux.ServeHTTP ⟨"t".toList, [("/old".toList, "/new".toList)], [], "w".toList⟩
        ⟨"/old".toList, "w".toList, [], []⟩
      = Response.redirect307 "/new".toList :=
  ⟨(alias_redirect_preserves_query
      ⟨"t".toList, [("/old".toList, "/new".toList)], [], "w".toList⟩
      ⟨"/old".toList, "w".toList, [], "q=1".toList⟩ "/new".toList
      (by decide) rfl (by decide)).1 (by decide),
    (alias_redirect_preserves_query
      ⟨"t".toList, [("/old".toList, "/new".toList)], [], "w".toList⟩
      ⟨"/old".toList, "w".toList, [], []⟩ "/new".toList
      (by decide) rfl (by decide)).2 rfl⟩

/-- Claim C10: the metrics authorization check never examines the scheme
word — whenever the Authorization value splits into exactly two chunks whose
second equals the configured secret, the dispatcher delegates to the metrics
handler whatever the first chunk is. -/
theorem metrics_scheme_ignored (m : mux) (r : Request) (w : Str)
    (hp : r.path = "/metrics".toList)
    (hs : goSplit ' ' r.authHeader = [w, m.bearerToken]) :
    m.ServeHTTP r = Response.metricsServed := by
  unfold mux.ServeHTTP
  rw [if_pos hp]
  unfold metricsGate
  rw [hs]
  simp

/-- Claim C10, witness: a Basic-scheme header carrying the exact secret is
accepted just like a Bearer one. -/
theorem metrics_scheme_ignored_witness :
    mux.ServeHTTP ⟨"sec".toList, [], [], "h".toList⟩
      ⟨"/metrics".toList, "any".toList, "Basic sec".toList, []⟩ = Response.metricsServed :=
  metrics_scheme_ignored ⟨"sec".toList, [], [], "h".toList⟩
    ⟨"/metrics".toList, "any".toList, "Basic sec".toList, []⟩ "Basic".toList
    rfl (by decide)

end Blogengine
